import Mathlib

/-!
Verification of the CLTK v1 orchestration core (`src/cltkv1/nlp.py`).

The repository ships only `nlp.py`: the `NLP` orchestrator class, the
module-level `pipelines` registry, and the doctests.  Its collaborators
(`Doc`, `Language`, `Pipeline`, `get_lang`, the exception classes and the
per-language pipeline/process classes) are imported from modules that are
not part of the repository snapshot; those are modelled from the
specification, each with a doc comment saying so.  Everything about the
orchestrator itself (`NLP.__init__`, `NLP._get_pipeline`, `NLP.analyze`)
is translated directly from the source.
-/

namespace Cltk

/-- Modelled from the spec: `Language` from `cltkv1.utils.data_types` is not
under `src/`.  The spec describes it as an immutable value with an ISO-639-3
code, a display name and optional metadata, identity given by the code. -/
structure Language where
  name : String
  iso_639_3_code : String
deriving DecidableEq, Repr

/-- Modelled from the spec: `Word` from `cltkv1.utils.data_types` is not
under `src/`.  Fields follow the spec (surface string, token and sentence
indices, part-of-speech tags, lemma, morphological features, dependency
governor and relation, character offsets), all optional. -/
structure Word where
  string : Option String := none
  index_token : Option Nat := none
  index_sentence : Option Nat := none
  pos : Option String := none
  lemmaForm : Option String := none
  upos : Option String := none
  xpos : Option String := none
  feats : Option String := none
  governor : Option Nat := none
  dependency_relation : Option String := none
  index_char_start : Option Nat := none
  index_char_stop : Option Nat := none
deriving DecidableEq, Repr

/-- Modelled from the spec: `Doc` from `cltkv1.utils.data_types` is not
under `src/`.  The spec describes the Document as the mutable accumulator
holding the language code, the raw text, and the derived word and sentence
sequences; the orchestrator constructs it as `Doc(language=..., raw=text)`,
leaving every derived field empty. -/
structure Doc where
  language : Option String := none
  raw : Option String := none
  words : List Word := []
  sentences : List (List Word) := []
deriving DecidableEq, Repr

/-- Modelled from the spec: a `Process` is a black-box unit of work that
consumes `(Document, languageCode)` and produces a new Document or fails
with a process-specific error (surfaced here as an error string).  In the
source a Process type is instantiated with `input_doc` and `language`,
`run()` is called, and `output_doc` is read; that protocol collapses to a
single fallible function. -/
structure Process where
  run : Doc → String → Except String Doc

/-- Modelled from the spec: `Pipeline` from `cltkv1.utils.data_types` is not
under `src/`.  The spec describes it as a value object with a description
string, an ordered sequence of Process types and a target Language. -/
structure Pipeline where
  description : String
  processes : List Process
  language : Language

/-- Modelled from the spec: Python truthiness of a `Pipeline` value.  The
spec describes `Pipeline` as a plain value object; it declares no
`__bool__` or `__len__`, so every instance is truthy under Python's default
rules. -/
def Pipeline.pyBool (_p : Pipeline) : Bool := true

/-- Modelled from the spec: Python truthiness of the optional
`custom_pipeline` argument — `None` is falsy, a `Pipeline` object has the
truth value of the object itself. -/
def pyTruthy : Option Pipeline → Bool
  | none => false
  | some p => p.pyBool

/-- The two construction-time exception classes of
`cltkv1.utils.exceptions` (their module is not under `src/`; the taxonomy
is taken from the spec and from the doctests in `nlp.py`). -/
inductive CltkError where
  | unknownLanguage (message : String)
  | unimplementedLanguage (code : String)
deriving DecidableEq, Repr

/-- Modelled from the spec: the Language Registry behind `get_lang`
(`cltkv1.languages.utils`) is not under `src/`.  The doctests in `nlp.py`
pin down that the five pipeline languages and `axm` are registered while
`xxx` is not. -/
def LANGUAGES : List Language :=
  [ { name := "Latin", iso_639_3_code := "lat" },
    { name := "Ancient Greek", iso_639_3_code := "grc" },
    { name := "Church Slavic", iso_639_3_code := "chu" },
    { name := "Old French", iso_639_3_code := "fro" },
    { name := "Gothic", iso_639_3_code := "got" },
    { name := "Middle Armenian", iso_639_3_code := "axm" } ]

/-- Modelled from the spec: `get_lang(code)` resolves an ISO-639-3 code in
the Language Registry, failing with `UnknownLanguageError` when the code is
not in the static table.  Pure lookup, no side effects. -/
def get_lang (code : String) : Except CltkError Language :=
  match LANGUAGES.find? (fun l => l.iso_639_3_code == code) with
  | some l => .ok l
  | none => .error (.unknownLanguage code)

/-- Modelled from the spec: whitespace tokenization used by the black-box
per-language tokenization processes, producing one `Word` per token with a
1-based `index_token`.  Splitting a character list on blanks; the result is
always non-empty (the empty text yields one empty token). -/
def splitTokens : List Char → List (List Char)
  | [] => [[]]
  | c :: cs =>
    let r := splitTokens cs
    if c = ' ' then [] :: r
    else
      match r with
      | [] => [[c]]
      | t :: ts => (c :: t) :: ts

/-- Modelled from the spec: the token list of a text, as `Word` values. -/
def tokenizeWords (text : String) : List Word :=
  (splitTokens text.toList).enum.map
    (fun p => { string := some (String.mk p.2), index_token := some (p.1 + 1) })

/-- Modelled from the spec: the per-language tokenization Process classes
(e.g. `LatinTokenizationProcess`) are not under `src/`.  A tokenization
step reads the Document's raw text and populates the word sequence,
preserving every other field. -/
def tokenizationProcess : Process :=
  { run := fun doc _lang =>
      match doc.raw with
      | some t => .ok { doc with words := tokenizeWords t }
      | none => .error "tokenization requires raw text" }

/-- Modelled from the spec: a black-box tagging Process, refining each
existing word with a part-of-speech annotation and touching nothing else. -/
def taggingProcess : Process :=
  { run := fun doc _lang =>
      .ok { doc with words := doc.words.map (fun w => { w with upos := some "X" }) } }

/-- Modelled from the spec: `LatinPipeline` from `cltkv1.utils.pipelines`
is not under `src/`; a default pipeline is an ordered list of annotation
steps targeting its language. -/
def LatinPipeline : Pipeline :=
  { description := "Pipeline for the Latin language",
    processes := [tokenizationProcess, taggingProcess],
    language := { name := "Latin", iso_639_3_code := "lat" } }

/-- Modelled from the spec: `GreekPipeline` (not under `src/`). -/
def GreekPipeline : Pipeline :=
  { description := "Pipeline for the Greek language",
    processes := [tokenizationProcess, taggingProcess],
    language := { name := "Ancient Greek", iso_639_3_code := "grc" } }

/-- Modelled from the spec: `OCSPipeline` (not under `src/`). -/
def OCSPipeline : Pipeline :=
  { description := "Pipeline for the Old Church Slavonic language",
    processes := [tokenizationProcess, taggingProcess],
    language := { name := "Church Slavic", iso_639_3_code := "chu" } }

/-- Modelled from the spec: `OldFrenchPipeline` (not under `src/`). -/
def OldFrenchPipeline : Pipeline :=
  { description := "Pipeline for the Old French language",
    processes := [tokenizationProcess, taggingProcess],
    language := { name := "Old French", iso_639_3_code := "fro" } }

/-- Modelled from the spec: `GothicPipeline` (not under `src/`). -/
def GothicPipeline : Pipeline :=
  { description := "Pipeline for the Gothic language",
    processes := [tokenizationProcess, taggingProcess],
    language := { name := "Gothic", iso_639_3_code := "got" } }

/-- The module-level default pipeline registry of `nlp.py`:
`pipelines = {"lat": LatinPipeline, "grc": GreekPipeline, "chu": OCSPipeline,
"fro": OldFrenchPipeline, "got": GothicPipeline}`. -/
def pipelines : List (String × Pipeline) :=
  [ ("lat", LatinPipeline),
    ("grc", GreekPipeline),
    ("chu", OCSPipeline),
    ("fro", OldFrenchPipeline),
    ("got", GothicPipeline) ]

/-- The orchestrator state: `self.language` and `self.pipeline`, the two
attributes `NLP.__init__` sets. -/
structure NLP where
  language : Language
  pipeline : Pipeline

/-- The body of `NLP._get_pipeline`: look the resolved language's code up
in the module-level `pipelines` registry and instantiate the resulting
pipeline class, raising `UnimplementedLanguageError` carrying the code when
the lookup misses (`KeyError`). -/
def getPipelineFor (language : Language) : Except CltkError Pipeline :=
  match pipelines.find? (fun kv => kv.1 == language.iso_639_3_code) with
  | some kv => .ok kv.2
  | none => .error (.unimplementedLanguage language.iso_639_3_code)

/-- The message `NLP.__init__` re-raises `UnknownLanguageError` with. -/
def unknownLanguageMessage (language : String) : String :=
  s!"Unknown language {language}. Use ISO 639-3 languages."

/-- `NLP.__init__(language, custom_pipeline=None)`: resolve the language
with `get_lang` (re-raising `UnknownLanguageError` with a fixed message),
then `self.pipeline = custom_pipeline if custom_pipeline else
self._get_pipeline()` — a Python truthiness test on `custom_pipeline`. -/
def NLP.make (language : String) (custom_pipeline : Option Pipeline := none) :
    Except CltkError NLP :=
  match get_lang language with
  | .error _ => .error (.unknownLanguage (unknownLanguageMessage language))
  | .ok lang =>
    match custom_pipeline with
    | some p =>
      if p.pyBool then .ok { language := lang, pipeline := p }
      else (getPipelineFor lang).map (fun pl => { language := lang, pipeline := pl })
    | none => (getPipelineFor lang).map (fun pl => { language := lang, pipeline := pl })

/-- The initial Document of `NLP.analyze`:
`doc = Doc(language=self.language.iso_639_3_code, raw=text)`. -/
def initialDoc (code : String) (text : String) : Doc :=
  { language := some code, raw := some text }

/-- The loop body of `NLP.analyze`: for each process in order, instantiate
it with the current Document and the language code, run it, and replace the
working Document with its output; a process failure propagates unmodified. -/
def runProcesses (processes : List Process) (lang : String) (doc : Doc) :
    Except String Doc :=
  match processes with
  | [] => .ok doc
  | p :: ps =>
    match p.run doc lang with
    | .ok out => runProcesses ps lang out
    | .error e => .error e

/-- `NLP.analyze(text)`: build the initial Document, thread it through every
process of `self.pipeline.processes` in order, return the final Document. -/
def NLP.analyze (nlp : NLP) (text : String) : Except String Doc :=
  runProcesses nlp.pipeline.processes nlp.language.iso_639_3_code
    (initialDoc nlp.language.iso_639_3_code text)

/-- `NLP.analyze` as a state-passing method: the source method reads
`self.language` and `self.pipeline` and assigns no attribute of `self`, so
the post-call orchestrator state is the pre-call state. -/
def NLP.analyzeSt (nlp : NLP) (text : String) : Except String Doc × NLP :=
  (nlp.analyze text, nlp)

/-- The execution relation of the `analyze` loop: `StepChain lang d ps d2`
holds when running the processes `ps` in order, starting from Document `d`,
each step consuming exactly the previous step's output Document, succeeds
and ends in Document `d2`. -/
inductive StepChain (lang : String) : Doc → List Process → Doc → Prop where
  | nil (d : Doc) : StepChain lang d [] d
  | cons {d d1 d2 : Doc} {p : Process} {ps : List Process}
      (hrun : p.run d lang = .ok d1) (hrest : StepChain lang d1 ps d2) :
      StepChain lang d (p :: ps) d2

theorem runProcesses_ok_iff (ps : List Process) (lang : String) (d0 d : Doc) :
    runProcesses ps lang d0 = .ok d ↔ StepChain lang d0 ps d := by
  induction ps generalizing d0 with
  | nil =>
    constructor
    · intro h
      simp only [runProcesses, Except.ok.injEq] at h
      subst h
      exact .nil d0
    · intro h
      cases h
      rfl
  | cons p ps ih =>
    constructor
    · intro h
      simp only [runProcesses] at h
      cases hr : p.run d0 lang with
      | ok out =>
        rw [hr] at h
        exact .cons hr ((ih out).mp h)
      | error e =>
        rw [hr] at h
        simp at h
    · intro h
      cases h with
      | cons hrun hrest =>
        simp only [runProcesses, hrun]
        exact (ih _).mpr hrest

theorem runProcesses_append_of_chain {lang : String} {ps1 : List Process}
    {d0 d : Doc} (h : StepChain lang d0 ps1 d) (rest : List Process) :
    runProcesses (ps1 ++ rest) lang d0 = runProcesses rest lang d := by
  induction h with
  | nil => rfl
  | cons hrun hrest ih =>
    simp only [List.cons_append, runProcesses, hrun]
    exact ih

theorem splitTokens_ne_nil (cs : List Char) : splitTokens cs ≠ [] := by
  cases cs with
  | nil => simp [splitTokens]
  | cons c cs =>
    simp only [splitTokens]
    split
    · simp
    · split <;> simp

theorem tokenizeWords_ne_nil (text : String) : tokenizeWords text ≠ [] := by
  simp only [tokenizeWords, ne_eq, List.map_eq_nil_iff, List.enum_eq_nil]
  exact splitTokens_ne_nil _

/-- Running a pipeline whose process list is the modelled default
`[tokenizationProcess, taggingProcess]` succeeds and produces the fully
annotated Document. -/
theorem analyze_default_processes (nlp : NLP) (text : String)
    (h : nlp.pipeline.processes = [tokenizationProcess, taggingProcess]) :
    nlp.analyze text =
      .ok { language := some nlp.language.iso_639_3_code,
            raw := some text,
            words := (tokenizeWords text).map (fun w => { w with upos := some "X" }),
            sentences := [] } := by
  unfold NLP.analyze
  rw [h]
  simp [runProcesses, tokenizationProcess, taggingProcess, initialDoc]

/-- A concrete orchestrator for the Latin default pipeline, as
`NLP(language="lat")` constructs it. -/
def latinNLP : NLP :=
  { language := { name := "Latin", iso_639_3_code := "lat" },
    pipeline := LatinPipeline }

/-- A process that always fails, standing for a Process whose resource is
missing or whose input is malformed. -/
def failingProcess : Process :=
  { run := fun _ _ => .error "missing model resource" }

/-- An orchestrator whose (custom) pipeline contains a failing step. -/
def failingNLP : NLP :=
  { language := { name := "Latin", iso_639_3_code := "lat" },
    pipeline := { description := "custom pipeline with a failing step",
                  processes := [failingProcess],
                  language := { name := "Latin", iso_639_3_code := "lat" } } }

/-- An orchestrator whose custom pipeline has no processes at all. -/
def emptyPipelineNLP : NLP :=
  { language := { name := "Latin", iso_639_3_code := "lat" },
    pipeline := { description := "custom pipeline with no steps",
                  processes := [],
                  language := { name := "Latin", iso_639_3_code := "lat" } } }

/-- A custom pipeline targeting Middle Armenian, a language with no
registered default pipeline. -/
def axmCustomPipeline : Pipeline :=
  { description := "custom pipeline for Middle Armenian",
    processes := [tokenizationProcess],
    language := { name := "Middle Armenian", iso_639_3_code := "axm" } }

/-- C1: `analyze` builds the initial Document from the resolved language
code and the raw text, then returns `.ok d` exactly when the pipeline's
processes, taken in declaration order, each run once on the previous step's
output Document (step i+1's input is step i's output) and the last one
outputs `d`. -/
theorem analyze_executes_pipeline_in_order (nlp : NLP) (text : String) (d : Doc) :
    nlp.analyze text = .ok d ↔
      StepChain nlp.language.iso_639_3_code
        (initialDoc nlp.language.iso_639_3_code text) nlp.pipeline.processes d :=
  runProcesses_ok_iff _ _ _ _

/-- C2: constructing the orchestrator with a language code that the
Language Registry does not know fails with `UnknownLanguageError`, whatever
the `custom_pipeline` argument is, so no pipeline selection happens and no
Document is ever created. -/
theorem unknown_language_fails_construction (code : String)
    (custom_pipeline : Option Pipeline)
    (h : LANGUAGES.find? (fun l => l.iso_639_3_code == code) = none) :
    NLP.make code custom_pipeline
      = .error (.unknownLanguage (unknownLanguageMessage code)) := by
  unfold NLP.make get_lang
  rw [h]

/-- Witness for C2 at the unregistered code `xxx`, with a custom pipeline
supplied. -/
theorem unknown_language_fails_construction_witness :
    NLP.make "xxx" (some LatinPipeline)
      = .error (.unknownLanguage (unknownLanguageMessage "xxx")) :=
  unknown_language_fails_construction "xxx" (some LatinPipeline) rfl

/-- C3: a code the Language Registry knows but the default pipeline
registry does not, with no custom pipeline supplied, fails construction
with `UnimplementedLanguageError` carrying the code (not
`UnknownLanguageError`). -/
theorem known_language_without_default_pipeline (code : String)
    (hknown : (LANGUAGES.find? (fun l => l.iso_639_3_code == code)).isSome)
    (hnodef : pipelines.find? (fun kv => kv.1 == code) = none) :
    NLP.make code none = .error (.unimplementedLanguage code) := by
  obtain ⟨l, hl⟩ := Option.isSome_iff_exists.mp hknown
  have hcode : l.iso_639_3_code = code := by simpa using List.find?_some hl
  unfold NLP.make get_lang getPipelineFor
  rw [hl]
  simp only [hcode, hnodef]
  rfl

/-- Witness for C3 at `axm` (Middle Armenian), registered but without a
default pipeline. -/
theorem known_language_without_default_pipeline_witness :
    NLP.make "axm" none = .error (.unimplementedLanguage "axm") :=
  known_language_without_default_pipeline "axm" (by decide) rfl

/-- C5: a custom Pipeline supplied at construction bypasses the default
lookup: the orchestrator succeeds for every registered language, its
pipeline is exactly the supplied object, and no
`UnimplementedLanguageError` is raised even when the language has no
registered default. -/
theorem custom_pipeline_bypasses_default_lookup (code : String) (p : Pipeline)
    (lang : Language) (hlang : get_lang code = .ok lang) :
    NLP.make code (some p) = .ok { language := lang, pipeline := p } := by
  unfold NLP.make
  rw [hlang]
  rfl

/-- Witness for C5 at `axm`, a language with no registered default
pipeline: construction succeeds and the pipeline is the supplied object. -/
theorem custom_pipeline_bypasses_default_lookup_witness :
    NLP.make "axm" (some axmCustomPipeline)
      = .ok { language := { name := "Middle Armenian", iso_639_3_code := "axm" },
              pipeline := axmCustomPipeline } :=
  custom_pipeline_bypasses_default_lookup "axm" axmCustomPipeline
    { name := "Middle Armenian", iso_639_3_code := "axm" } rfl

/-- C4: if the pipeline's process list splits as `ps1 ++ p :: ps2`, the
prefix `ps1` runs to some Document `d`, and `p` fails on `d` with error
`e`, then `analyze` returns exactly that error `e` — unmodified, with the
remaining steps never run and no Document returned. -/
theorem analyze_propagates_process_error (nlp : NLP) (text : String)
    (ps1 ps2 : List Process) (p : Process) (d : Doc) (e : String)
    (hsplit : nlp.pipeline.processes = ps1 ++ p :: ps2)
    (hpre : StepChain nlp.language.iso_639_3_code
      (initialDoc nlp.language.iso_639_3_code text) ps1 d)
    (hfail : p.run d nlp.language.iso_639_3_code = .error e) :
    nlp.analyze text = .error e := by
  unfold NLP.analyze
  rw [hsplit, runProcesses_append_of_chain hpre]
  simp only [runProcesses, hfail]

/-- Witness for C4: an orchestrator whose first step fails surfaces the
step's error verbatim from `analyze`. -/
theorem analyze_propagates_process_error_witness :
    failingNLP.analyze "arma virumque cano" = .error "missing model resource" :=
  analyze_propagates_process_error failingNLP "arma virumque cano" [] []
    failingProcess (initialDoc "lat" "arma virumque cano") "missing model resource"
    rfl (.nil _) rfl

/-- C6: for every language code registered in the default pipeline
registry and every non-empty text, construction with no custom pipeline
succeeds and `analyze` returns a Document whose `language` equals the code
and whose `words` sequence is non-empty. -/
theorem registered_language_analyze_nonempty_words (L text : String)
    (hL : L ∈ pipelines.map Prod.fst) (_htext : text ≠ "") :
    ∃ nlp d, NLP.make L none = .ok nlp ∧ nlp.analyze text = .ok d ∧
      d.language = some L ∧ d.words ≠ [] := by
  have hw : ((tokenizeWords text).map (fun w => { w with upos := some "X" })) ≠ [] := by
    simp only [ne_eq, List.map_eq_nil_iff]
    exact tokenizeWords_ne_nil text
  fin_cases hL
  · exact ⟨_, _, rfl, analyze_default_processes _ text rfl, rfl, hw⟩
  · exact ⟨_, _, rfl, analyze_default_processes _ text rfl, rfl, hw⟩
  · exact ⟨_, _, rfl, analyze_default_processes _ text rfl, rfl, hw⟩
  · exact ⟨_, _, rfl, analyze_default_processes _ text rfl, rfl, hw⟩
  · exact ⟨_, _, rfl, analyze_default_processes _ text rfl, rfl, hw⟩

/-- Witness for C6 at `lat` on a concrete non-empty text. -/
theorem registered_language_analyze_nonempty_words_witness :
    ∃ nlp d, NLP.make "lat" none = .ok nlp ∧
      nlp.analyze "arma virumque cano" = .ok d ∧
      d.language = some "lat" ∧ d.words ≠ [] :=
  registered_language_analyze_nonempty_words "lat" "arma virumque cano"
    (by decide) (by decide)

/-- C7: the result of `analyze` is a function of the orchestrator's
language, its pipeline and the text alone: a second call — made after a
first call on any text whose returned Document the caller transforms
arbitrarily — equals the call on any fresh orchestrator with the same
language and pipeline, so no state leaks between calls. -/
theorem analyze_independent_calls (nlp1 nlp2 : NLP) (t1 t : String)
    (hl : nlp1.language = nlp2.language) (hp : nlp1.pipeline = nlp2.pipeline) :
    (∀ f : Doc → Doc,
      (let r1 := nlp1.analyzeSt t1
       let _mutated := Except.map f r1.1
       r1.2.analyze t) = nlp2.analyze t) ∧
    nlp1.analyze t = nlp2.analyze t := by
  have hbase : nlp1.analyze t = nlp2.analyze t := by
    unfold NLP.analyze
    rw [hl, hp]
  exact ⟨fun f => hbase, hbase⟩

/-- Witness for C7: two calls on the Latin orchestrator, the first
Document arbitrarily transformed in between. -/
theorem analyze_independent_calls_witness :
    (∀ f : Doc → Doc,
      (let r1 := latinNLP.analyzeSt "gallia est omnis divisa"
       let _mutated := Except.map f r1.1
       r1.2.analyze "arma virumque cano") = latinNLP.analyze "arma virumque cano") ∧
    latinNLP.analyze "arma virumque cano" = latinNLP.analyze "arma virumque cano" :=
  analyze_independent_calls latinNLP latinNLP "gallia est omnis divisa"
    "arma virumque cano" rfl rfl

/-- C8: the constructor's choice between the supplied pipeline and the
default lookup is a Python truthiness test: for every falsy
`custom_pipeline` argument it behaves exactly as with no custom pipeline,
performing the default lookup for the resolved language (raising
`UnimplementedLanguageError` when that lookup misses). -/
theorem falsy_custom_pipeline_uses_default_lookup (code : String)
    (cp : Option Pipeline) (hfalsy : pyTruthy cp = false) :
    NLP.make code cp = NLP.make code none ∧
    (∀ lang, get_lang code = .ok lang →
      NLP.make code cp
        = (getPipelineFor lang).map (fun pl => { language := lang, pipeline := pl })) := by
  have hcp : cp = none := by
    cases cp with
    | none => rfl
    | some p => simp [pyTruthy, Pipeline.pyBool] at hfalsy
  subst hcp
  refine ⟨rfl, fun lang hlang => ?_⟩
  unfold NLP.make
  rw [hlang]

/-- Witness for C8 at the falsy argument `none` and the code `axm`, whose
default lookup raises `UnimplementedLanguageError`. -/
theorem falsy_custom_pipeline_uses_default_lookup_witness :
    pyTruthy none = false ∧
    (NLP.make "axm" none = NLP.make "axm" none ∧
      (∀ lang, get_lang "axm" = .ok lang →
        NLP.make "axm" none
          = (getPipelineFor lang).map (fun pl => { language := lang, pipeline := pl }))) :=
  ⟨rfl, falsy_custom_pipeline_uses_default_lookup "axm" none rfl⟩

/-- C9: `analyze`, run as a state-passing method, returns the orchestrator
state unchanged: the post-call `language` and `pipeline` attributes are the
pre-call ones, so successive calls reuse the same pipeline. -/
theorem analyze_leaves_orchestrator_unchanged (nlp : NLP) (text : String) :
    (nlp.analyzeSt text).2 = nlp ∧
    (nlp.analyzeSt text).2.language = nlp.language ∧
    (nlp.analyzeSt text).2.pipeline = nlp.pipeline :=
  ⟨rfl, rfl, rfl⟩

/-- C10: with an empty process list, `analyze` runs zero steps and returns
the initial Document unchanged: language stamped with the resolved code,
raw set to the input text, and no annotation fields populated. -/
theorem analyze_empty_pipeline_returns_initial (nlp : NLP) (text : String)
    (h : nlp.pipeline.processes = []) :
    nlp.analyze text = .ok (initialDoc nlp.language.iso_639_3_code text) ∧
    (initialDoc nlp.language.iso_639_3_code text).language
        = some nlp.language.iso_639_3_code ∧
    (initialDoc nlp.language.iso_639_3_code text).raw = some text ∧
    (initialDoc nlp.language.iso_639_3_code text).words = [] ∧
    (initialDoc nlp.language.iso_639_3_code text).sentences = [] := by
  refine ⟨?_, rfl, rfl, rfl, rfl⟩
  unfold NLP.analyze
  rw [h]
  rfl

/-- Witness for C10: an orchestrator with a zero-step custom pipeline
returns the bare initial Document. -/
theorem analyze_empty_pipeline_returns_initial_witness :
    emptyPipelineNLP.analyze "arma" = .ok (initialDoc "lat" "arma") ∧
    (initialDoc "lat" "arma").language = some "lat" ∧
    (initialDoc "lat" "arma").raw = some "arma" ∧
    (initialDoc "lat" "arma").words = [] ∧
    (initialDoc "lat" "arma").sentences = [] :=
  analyze_empty_pipeline_returns_initial emptyPipelineNLP "arma" rfl

end Cltk
